import Mathlib

/-!
# gophernews: a shallow embedding of the Hacker News API client

The embedding follows `gophernews.go` function by function.

* Go's multiple return `(T, error)` becomes the record `Ret T`, which carries the
  returned value, the returned error (`none` is Go's `nil`) and, as explicit
  state, the list of URLs handed to `HTTPClient.Get` while the call ran.
* The collaborators the file imports and does not implement are parameters:
  the transport handle (`HTTPClient`, a field of `Client` as in the source), and
  the runtime `Env` holding `json.Unmarshal` at each target type the source
  uses, `http.DefaultClient`, and the code address that `fmt` prints for a
  function value.
* Types the file uses and does not declare (`item`, `Item`, `Story`, `Comment`,
  `Poll`, `Part`, `User`, `Changes`) and the field accessors of `item` are
  modelled from the specification and marked so.
* `Type` is a reserved word of Lean: the field and the accessor named `Type` in
  the source are written `Type_`.
-/

namespace Gophernews

/-! ## Go values -/

/-- Go byte slices (`[]byte`); the nil slice is the empty list. -/
abbrev Bytes := List UInt8

/-- The conversion `[]byte(s)` of a Go string: its UTF-8 bytes. -/
def bytesOf (s : String) : Bytes := s.toUTF8.data.toList

/-- Go `error` values, by the package that created them and their message:
`net` for the errors of `net/http` and `ioutil` (connection and body-read
failures), `json` for the errors of `encoding/json`, `errorf` for the errors
the client itself builds with `fmt.Errorf`. -/
inductive GoError where
  | net (msg : String)
  | json (msg : String)
  | errorf (msg : String)
deriving DecidableEq, Repr

/-- The message of an error (`err.Error()`). -/
def GoError.Error : GoError → String
  | .net msg => msg
  | .json msg => msg
  | .errorf msg => msg

/-- The result of a client call: the value and the error that Go returns, and
the URLs requested through the transport handle during the call, in order. -/
structure Ret (α : Type) where
  val : α
  err : Option GoError
  reqs : List String
deriving DecidableEq, Repr

/-- The function `strconv.Itoa`, which is also how `fmt` prints an `int` under
`%v`: decimal digits, with a leading minus sign for a negative number. -/
def Itoa (n : Int) : String := toString n

/-- How `fmt` prints a function value under `%v` (`fmtPointer`): the code
address in hexadecimal (lower case) after `0x`, and `<nil>` for the address
zero, which no method value has. -/
def fmtFunc (pc : Nat) : String :=
  if pc = 0 then "<nil>" else "0x" ++ String.mk (Nat.toDigits 16 pc)

/-! ## Data model -/

/-- Modelled from the spec: the values of the fields of a generic item record
(spec section 3): strings, integers, booleans, sequences of integer ids; `other`
stands for any JSON value of another shape. The declaration is not in
`gophernews.go`. -/
inductive Value where
  | str (s : String)
  | int (n : Int)
  | bool (b : Bool)
  | ints (xs : List Int)
  | other
deriving DecidableEq, Repr

/-- Modelled from the spec: the type `item`, whose declaration is not in
`gophernews.go`. `getItem` returns a `map[string]interface{}` as an `item`, so it
is a map from field names to values: `nil` is the nil map (`var i
map[string]interface{}`), `map kv` a map with the listed entries, and `map []`
is the empty map `item{}`. -/
inductive item where
  | nil
  | map (kv : List (String × Value))
deriving DecidableEq, Repr

/-- Modelled from the spec: the exported type `Item` that `GetMaxItem` returns;
its declaration is not in `gophernews.go`. `GetMaxItem` returns values of type
`item` as `Item`, so an `Item` is taken to be the `item` it holds. -/
abbrev Item := item

/-- Go's map index `i[key]` with the comma-ok result: a missing key, or any key
of the nil map, gives nothing. -/
def item.get (i : item) (key : String) : Option Value :=
  match i with
  | .nil => none
  | .map kv => kv.lookup key

/-- Modelled from the spec: a string field of an item; a missing key (or a value
of another shape) yields the empty string, never a fault (spec section 3). -/
def item.getString (i : item) (key : String) : String :=
  match i.get key with
  | some (.str s) => s
  | _ => ""

/-- Modelled from the spec: an integer field of an item; a missing key yields
zero. -/
def item.getInt (i : item) (key : String) : Int :=
  match i.get key with
  | some (.int n) => n
  | _ => 0

/-- Modelled from the spec: a field holding a sequence of ids; a missing key
yields the nil sequence. -/
def item.getInts (i : item) (key : String) : List Int :=
  match i.get key with
  | some (.ints xs) => xs
  | _ => []

/-- Modelled from the spec: the accessor `item.By()`, absent from
`gophernews.go`: the field `by`. -/
def item.By (i : item) : String := i.getString "by"

/-- Modelled from the spec: the accessor `item.ID()`: the field `id`. -/
def item.ID (i : item) : Int := i.getInt "id"

/-- Modelled from the spec: the accessor `item.Kids()`: the field `kids`. -/
def item.Kids (i : item) : List Int := i.getInts "kids"

/-- Modelled from the spec: the accessor `item.Parent()`: the field `parent`. -/
def item.Parent (i : item) : Int := i.getInt "parent"

/-- Modelled from the spec: the accessor `item.Parts()`: the field `parts`. -/
def item.Parts (i : item) : List Int := i.getInts "parts"

/-- Modelled from the spec: the accessor `item.Score()`: the field `score`. -/
def item.Score (i : item) : Int := i.getInt "score"

/-- Modelled from the spec: the accessor `item.Text()`: the field `text`. -/
def item.Text (i : item) : String := i.getString "text"

/-- Modelled from the spec: the accessor `item.Time()`: the field `time`. -/
def item.Time (i : item) : Int := i.getInt "time"

/-- Modelled from the spec: the accessor `item.Title()`: the field `title`. -/
def item.Title (i : item) : String := i.getString "title"

/-- Modelled from the spec: the accessor `item.Type()`: the discriminant, the
field `type`. -/
def item.Type_ (i : item) : String := i.getString "type"

/-- Modelled from the spec: the accessor `item.URL()`: the field `url`. -/
def item.URL (i : item) : String := i.getString "url"

/-- Modelled from the spec: the struct `Story`; its declaration is not in
`gophernews.go`, its fields are those `ToStory` assigns. The default values are
Go's zero values, so `{}` is `Story{}`. -/
structure Story where
  By : String := ""
  ID : Int := 0
  Kids : List Int := []
  Score : Int := 0
  Time : Int := 0
  Title : String := ""
  Type_ : String := ""
  URL : String := ""
deriving DecidableEq, Repr

/-- Modelled from the spec: the struct `Comment`, with the fields `ToComment`
assigns. -/
structure Comment where
  By : String := ""
  ID : Int := 0
  Kids : List Int := []
  Parent : Int := 0
  Text : String := ""
  Time : Int := 0
  Type_ : String := ""
deriving DecidableEq, Repr

/-- Modelled from the spec: the struct `Poll`, with the fields `ToPoll`
assigns. -/
structure Poll where
  By : String := ""
  ID : Int := 0
  Kids : List Int := []
  Parts : List Int := []
  Score : Int := 0
  Text : String := ""
  Time : Int := 0
  Title : String := ""
  Type_ : String := ""
deriving DecidableEq, Repr

/-- Modelled from the spec: the struct `Part`, with the fields `ToPart`
assigns. -/
structure Part where
  By : String := ""
  ID : Int := 0
  Parent : Int := 0
  Score : Int := 0
  Text : String := ""
  Time : Int := 0
  Type_ : String := ""
deriving DecidableEq, Repr

/-- Modelled from the spec: the struct `User` (spec section 3: about text,
creation timestamp, karma score, submitted-item ids); its declaration is not in
`gophernews.go`. -/
structure User where
  About : String := ""
  Created : Int := 0
  Karma : Int := 0
  Submitted : List Int := []
deriving DecidableEq, Repr

/-- Modelled from the spec: the struct `Changes` (spec section 3: the ids of the
changed items and the ids of the users with changed profiles). -/
structure Changes where
  Items : List Int := []
  Profiles : List String := []
deriving DecidableEq, Repr

/-! ## Collaborators -/

/-- An HTTP response as `MakeHTTPRequest` reads it: the status code and the
outcome of `ioutil.ReadAll(response.Body)`. -/
structure Response where
  StatusCode : Int
  Body : Except GoError Bytes

/-- The transport handle (`*http.Client`, not nil): its method `Get`. -/
structure HTTPClient where
  Get : String → Except GoError Response

/-- The struct `Client`. -/
structure Client where
  BaseURI : String
  Version : String
  Suffix : String
  HTTPClient : HTTPClient

/-- The Go runtime and standard library as the client sees them.
`unmarshalX body` is `json.Unmarshal(body, &x)` for a freshly declared variable
`x` of the type in question: the value of `x` afterwards and the error
returned. `DefaultClient` is `http.DefaultClient`. `TypePC` is the code address
of the method value `item.Type`, which is what `fmt` prints for it. -/
structure Env where
  DefaultClient : HTTPClient
  unmarshalItem : Bytes → item × Option GoError
  unmarshalUser : Bytes → User × Option GoError
  unmarshalInts : Bytes → List Int × Option GoError
  unmarshalInt : Bytes → Int × Option GoError
  unmarshalChanges : Bytes → Changes × Option GoError
  TypePC : Nat

/-! ## The client -/

/-- The function `NewClient`: a nil handle (`none`) selects
`http.DefaultClient`. -/
def NewClient (E : Env) (HTTPClient : Option HTTPClient) : Client :=
  let HTTPClient :=
    match HTTPClient with
    | none => E.DefaultClient
    | some h => h
  { BaseURI := "https://hacker-news.firebaseio.com/"
    Version := "v0"
    Suffix := ".json"
    HTTPClient := HTTPClient }

/-- The method `Client.MakeHTTPRequest`: one `Get`, then the body is read, then
the status code is compared with `http.StatusNotFound` (404), whose
`http.StatusText` is the string `Not Found`. -/
def MakeHTTPRequest (c : Client) (url : String) : Ret Bytes :=
  match c.HTTPClient.Get url with
  | .error err => ⟨[], some err, [url]⟩
  | .ok response =>
    match response.Body with
    | .error err => ⟨[], some err, [url]⟩
    | .ok body =>
      if response.StatusCode = 404 then
        ⟨[], some (.errorf "Not Found"), [url]⟩
      else
        ⟨body, none, [url]⟩

/-- The URL `getItem` builds. -/
def itemURL (c : Client) (id : Int) : String :=
  c.BaseURI ++ c.Version ++ "/item/" ++ Itoa id ++ c.Suffix

/-- The URL `GetUser` builds. -/
def userURL (c : Client) (id : String) : String :=
  c.BaseURI ++ c.Version ++ "/user/" ++ id ++ c.Suffix

/-- The URL `GetTopStories` builds. -/
def topStoriesURL (c : Client) : String :=
  c.BaseURI ++ c.Version ++ "/topstories" ++ c.Suffix

/-- The URL `GetMaxItem` builds. -/
def maxItemURL (c : Client) : String :=
  c.BaseURI ++ c.Version ++ "/maxitem" ++ c.Suffix

/-- The URL `GetChanges` builds. -/
def changesURL (c : Client) : String :=
  c.BaseURI ++ c.Version ++ "/updates" ++ c.Suffix

/-- The method `Client.getItem`. -/
def getItem (E : Env) (c : Client) (id : Int) : Ret item :=
  let url := itemURL c id
  let i : item := .nil
  let r := MakeHTTPRequest c url
  match r.err with
  | some err => ⟨i, some err, r.reqs⟩
  | none =>
    if r.val = bytesOf "404 page not found" then
      ⟨i, some (.errorf "404 page not found"), r.reqs⟩
    else
      let d := E.unmarshalItem r.val
      ⟨d.1, d.2, r.reqs⟩

/-- The method `item.ToStory`. -/
def item.ToStory (i : item) : Story :=
  { By := i.By
    ID := i.ID
    Kids := i.Kids
    Score := i.Score
    Time := i.Time
    Title := i.Title
    Type_ := i.Type_
    URL := i.URL }

/-- The method `item.ToComment`. -/
def item.ToComment (i : item) : Comment :=
  { By := i.By
    ID := i.ID
    Kids := i.Kids
    Parent := i.Parent
    Text := i.Text
    Time := i.Time
    Type_ := i.Type_ }

/-- The method `item.ToPoll`. -/
def item.ToPoll (i : item) : Poll :=
  { By := i.By
    ID := i.ID
    Kids := i.Kids
    Parts := i.Parts
    Score := i.Score
    Text := i.Text
    Time := i.Time
    Title := i.Title
    Type_ := i.Type_ }

/-- The method `item.ToPart`. -/
def item.ToPart (i : item) : Part :=
  { By := i.By
    ID := i.ID
    Parent := i.Parent
    Score := i.Score
    Text := i.Text
    Time := i.Time
    Type_ := i.Type_ }

/-- The error the typed accessor `op` builds on a discriminant mismatch:
`fmt.Errorf("Called <op> on ID #%v which is not a _<kind>_. Item is of type
_%v_.", id, item.Type)`. The second argument is the method value `item.Type`,
not the call `item.Type()`, so `fmt` prints a code address. -/
def mismatchError (E : Env) (op kind : String) (id : Int) : GoError :=
  .errorf ("Called " ++ op ++ " on ID #" ++ Itoa id ++ " which is not a _" ++ kind ++ "_. " ++
    "Item is of type _" ++ fmtFunc E.TypePC ++ "_.")

/-- The method `Client.GetStory`. -/
def GetStory (E : Env) (c : Client) (id : Int) : Ret Story :=
  let r := getItem E c id
  match r.err with
  | some err => ⟨{}, some err, r.reqs⟩
  | none =>
    if r.val.Type_ ≠ "story" then
      ⟨{}, some (mismatchError E "GetStory" "story" id), r.reqs⟩
    else
      ⟨r.val.ToStory, none, r.reqs⟩

/-- The method `Client.GetComment`. -/
def GetComment (E : Env) (c : Client) (id : Int) : Ret Comment :=
  let r := getItem E c id
  match r.err with
  | some err => ⟨{}, some err, r.reqs⟩
  | none =>
    if r.val.Type_ ≠ "comment" then
      ⟨{}, some (mismatchError E "GetComment" "comment" id), r.reqs⟩
    else
      ⟨r.val.ToComment, none, r.reqs⟩

/-- The method `Client.GetPoll`. -/
def GetPoll (E : Env) (c : Client) (id : Int) : Ret Poll :=
  let r := getItem E c id
  match r.err with
  | some err => ⟨{}, some err, r.reqs⟩
  | none =>
    if r.val.Type_ ≠ "poll" then
      ⟨{}, some (mismatchError E "GetPoll" "poll" id), r.reqs⟩
    else
      ⟨r.val.ToPoll, none, r.reqs⟩

/-- The method `Client.GetPart`; the discriminant is `pollopt`, the message
says `part`. -/
def GetPart (E : Env) (c : Client) (id : Int) : Ret Part :=
  let r := getItem E c id
  match r.err with
  | some err => ⟨{}, some err, r.reqs⟩
  | none =>
    if r.val.Type_ ≠ "pollopt" then
      ⟨{}, some (mismatchError E "GetPart" "part" id), r.reqs⟩
    else
      ⟨r.val.ToPart, none, r.reqs⟩

/-- The method `Client.GetUser`. -/
def GetUser (E : Env) (c : Client) (id : String) : Ret User :=
  let url := userURL c id
  let u : User := {}
  let r := MakeHTTPRequest c url
  match r.err with
  | some err => ⟨u, some err, r.reqs⟩
  | none =>
    let d := E.unmarshalUser r.val
    match d.2 with
    | some err => ⟨d.1, some err, r.reqs⟩
    | none => ⟨d.1, none, r.reqs⟩

/-- The method `Client.GetTopStories`. The error of `MakeHTTPRequest` is
assigned to `err` and overwritten by the result of `json.Unmarshal` before it is
read. -/
def GetTopStories (E : Env) (c : Client) : Ret (List Int) :=
  let url := topStoriesURL c
  let r := MakeHTTPRequest c url
  let d := E.unmarshalInts r.val
  match d.2 with
  | some err => ⟨[], some err, r.reqs⟩
  | none => ⟨d.1, none, r.reqs⟩

/-- The method `Client.GetMaxItem`. The error of `MakeHTTPRequest` is
overwritten by the result of `json.Unmarshal` before it is read. -/
def GetMaxItem (E : Env) (c : Client) : Ret Item :=
  let url := maxItemURL c
  let r := MakeHTTPRequest c url
  let d := E.unmarshalInt r.val
  match d.2 with
  | some err => ⟨.map [], some err, r.reqs⟩
  | none =>
    let m := getItem E c d.1
    ⟨m.val, m.err, r.reqs ++ m.reqs⟩

/-- The method `Client.GetChanges`. The error of `MakeHTTPRequest` is
overwritten by the result of `json.Unmarshal` before it is read. -/
def GetChanges (E : Env) (c : Client) : Ret Changes :=
  let url := changesURL c
  let r := MakeHTTPRequest c url
  let d := E.unmarshalChanges r.val
  ⟨d.1, d.2, r.reqs⟩

/-! ## A concrete world

A transport serving a fixed table of responses and a decoder that agrees with
`encoding/json` on the bodies of that table and on the empty body. They give the
statements below concrete inputs to be evaluated at. -/

/-- Body of item 8412605, a story. -/
def storyBody : Bytes :=
  bytesOf "\x7b\"by\":\"example_user\",\"id\":8412605,\"score\":42,\"title\":\"Example Title\",\"type\":\"story\"\x7d"

/-- Body of item 2921983, a comment. -/
def commentBody : Bytes :=
  bytesOf "\x7b\"by\":\"norvig\",\"id\":2921983,\"parent\":2921506,\"type\":\"comment\"\x7d"

/-- Body of item 126809, a poll. -/
def pollBody : Bytes :=
  bytesOf "\x7b\"by\":\"pg\",\"id\":126809,\"parts\":[126810,126811],\"type\":\"poll\"\x7d"

/-- Body of item 160705, a poll option. -/
def partBody : Bytes :=
  bytesOf "\x7b\"by\":\"pg\",\"id\":160705,\"parent\":160704,\"score\":335,\"type\":\"pollopt\"\x7d"

/-- Body of the top-stories index: unsorted, with a repeated id. -/
def topBody : Bytes := bytesOf "[3,1,2,1]"

/-- Body of the max-item endpoint. -/
def maxBody : Bytes := bytesOf "8412605"

/-- Body of the updates endpoint. -/
def changesBody : Bytes := bytesOf "\x7b\"items\":[1,2],\"profiles\":[\"pg\"]\x7d"

/-- Body of the user `pg`. -/
def userBody : Bytes := bytesOf "\x7b\"about\":\"hi\",\"created\":1160418092,\"karma\":5\x7d"

/-- A user body whose `about` is a number: `encoding/json` stores the fields it
can (`karma`), skips `about` and reports an `UnmarshalTypeError`. -/
def badUserBody : Bytes := bytesOf "\x7b\"karma\":5,\"about\":3\x7d"

/-- A changes body whose `profiles` is a number: `items` is stored, `profiles`
is skipped and an `UnmarshalTypeError` is reported. -/
def badChangesBody : Bytes := bytesOf "\x7b\"items\":[1,2],\"profiles\":3\x7d"

/-- The error `encoding/json` reports for an empty input. -/
def jsonEOF : GoError := .json "unexpected end of JSON input"

/-- A response with status 200. -/
def ok200 (body : Bytes) : Except GoError Response := .ok ⟨200, .ok body⟩

/-- The demo transport. Item 99999999 is answered with status 404, item 500
with status 500 and a body; an unknown URL fails to connect. -/
def demoGet (url : String) : Except GoError Response :=
  if url = "https://hacker-news.firebaseio.com/v0/item/8412605.json" then ok200 storyBody
  else if url = "https://hacker-news.firebaseio.com/v0/item/2921983.json" then ok200 commentBody
  else if url = "https://hacker-news.firebaseio.com/v0/item/126809.json" then ok200 pollBody
  else if url = "https://hacker-news.firebaseio.com/v0/item/160705.json" then ok200 partBody
  else if url = "https://hacker-news.firebaseio.com/v0/item/99999999.json" then
    .ok ⟨404, .ok (bytesOf "Not found")⟩
  else if url = "https://hacker-news.firebaseio.com/v0/item/500.json" then
    .ok ⟨500, .ok storyBody⟩
  else if url = "https://hacker-news.firebaseio.com/v0/topstories.json" then ok200 topBody
  else if url = "https://hacker-news.firebaseio.com/v0/maxitem.json" then ok200 maxBody
  else if url = "https://hacker-news.firebaseio.com/v0/updates.json" then ok200 changesBody
  else if url = "https://hacker-news.firebaseio.com/v0/user/pg.json" then ok200 userBody
  else if url = "https://hacker-news.firebaseio.com/v0/user/bad.json" then ok200 badUserBody
  else .error (.net "dial tcp: connection refused")

/-- The demo decoder at type `item`. -/
def demoUnmarshalItem (body : Bytes) : item × Option GoError :=
  if body = storyBody then
    (.map [("by", .str "example_user"), ("id", .int 8412605), ("score", .int 42),
      ("title", .str "Example Title"), ("type", .str "story")], none)
  else if body = commentBody then
    (.map [("by", .str "norvig"), ("id", .int 2921983), ("parent", .int 2921506),
      ("type", .str "comment")], none)
  else if body = pollBody then
    (.map [("by", .str "pg"), ("id", .int 126809), ("parts", .ints [126810, 126811]),
      ("type", .str "poll")], none)
  else if body = partBody then
    (.map [("by", .str "pg"), ("id", .int 160705), ("parent", .int 160704),
      ("score", .int 335), ("type", .str "pollopt")], none)
  else (.nil, some jsonEOF)

/-- The demo decoder at type `User`. -/
def demoUnmarshalUser (body : Bytes) : User × Option GoError :=
  if body = userBody then
    ({ About := "hi", Created := 1160418092, Karma := 5 }, none)
  else if body = badUserBody then
    ({ Karma := 5 },
      some (.json "json: cannot unmarshal number into Go struct field User.about of type string"))
  else ({}, some jsonEOF)

/-- The demo decoder at type `[]int`. -/
def demoUnmarshalInts (body : Bytes) : List Int × Option GoError :=
  if body = topBody then ([3, 1, 2, 1], none)
  else ([], some jsonEOF)

/-- The demo decoder at type `int`. -/
def demoUnmarshalInt (body : Bytes) : Int × Option GoError :=
  if body = maxBody then (8412605, none)
  else (0, some jsonEOF)

/-- The demo decoder at type `Changes`. -/
def demoUnmarshalChanges (body : Bytes) : Changes × Option GoError :=
  if body = changesBody then
    ({ Items := [1, 2], Profiles := ["pg"] }, none)
  else if body = badChangesBody then
    ({ Items := [1, 2] },
      some (.json "json: cannot unmarshal number into Go struct field Changes.profiles of type []string"))
  else ({}, some jsonEOF)

/-- The demo runtime. -/
def demoEnv : Env :=
  { DefaultClient := ⟨demoGet⟩
    unmarshalItem := demoUnmarshalItem
    unmarshalUser := demoUnmarshalUser
    unmarshalInts := demoUnmarshalInts
    unmarshalInt := demoUnmarshalInt
    unmarshalChanges := demoUnmarshalChanges
    TypePC := 4869936 }

/-- The client `NewClient(nil)` of the demo runtime. -/
def demoClient : Client := NewClient demoEnv none

/-- A client whose transport never connects. -/
def downClient : Client :=
  NewClient demoEnv (some ⟨fun _ => .error (.net "dial tcp: connection refused")⟩)

/-- A client whose transport answers every request with status 404 and a
readable body. -/
def missingClient : Client :=
  NewClient demoEnv (some ⟨fun _ => .ok ⟨404, .ok (bytesOf "Not found")⟩⟩)

/-- A client whose transport answers the updates endpoint with a body that
`encoding/json` can decode only in part. -/
def badChangesClient : Client :=
  NewClient demoEnv (some ⟨fun _ => ok200 badChangesBody⟩)

/-! ## Shared lemmas -/

/-- Every call of `MakeHTTPRequest` hands exactly its URL to the transport. -/
theorem MakeHTTPRequest_reqs (c : Client) (url : String) :
    (MakeHTTPRequest c url).reqs = [url] := by
  unfold MakeHTTPRequest
  split
  · rfl
  · split
    · rfl
    · split <;> rfl

/-- A failing `MakeHTTPRequest` returns the nil byte slice. -/
theorem MakeHTTPRequest_val_of_err (c : Client) (url : String) (e : GoError)
    (h : (MakeHTTPRequest c url).err = some e) : (MakeHTTPRequest c url).val = [] := by
  unfold MakeHTTPRequest at h ⊢
  split
  · rfl
  · split
    · rfl
    · split
      · rfl
      · rename_i hget _ _ hbody hstatus
        simp [hget, hbody, hstatus] at h

/-- The requests of `getItem`: the item URL, once. -/
theorem getItem_reqs (E : Env) (c : Client) (id : Int) :
    (getItem E c id).reqs = [itemURL c id] := by
  unfold getItem
  simp only
  split
  · exact MakeHTTPRequest_reqs c _
  · split <;> exact MakeHTTPRequest_reqs c _

/-- A failing `getItem` returns the nil map. -/
theorem getItem_val_of_transport_err (E : Env) (c : Client) (id : Int) (e : GoError)
    (h : (MakeHTTPRequest c (itemURL c id)).err = some e) :
    (getItem E c id).val = .nil ∧ (getItem E c id).err = some e := by
  unfold getItem
  simp [h]

/-- The four discriminants are pairwise different strings. -/
theorem discriminants_distinct :
    "story" ≠ "comment" ∧ "story" ≠ "poll" ∧ "story" ≠ "pollopt" ∧
    "comment" ≠ "poll" ∧ "comment" ≠ "pollopt" ∧ "poll" ≠ "pollopt" := by
  decide

/-- On a discriminant mismatch the error of a typed accessor is built from the
operation, the kind it wanted, the id and the code address of `item.Type`; the
fetched item does not enter it. -/
theorem accessor_err_of_mismatch (E : Env) (c : Client) (id : Int)
    (h : (getItem E c id).err = none) :
    ((getItem E c id).val.Type_ ≠ "story" →
      (GetStory E c id).err = some (mismatchError E "GetStory" "story" id)) ∧
    ((getItem E c id).val.Type_ ≠ "comment" →
      (GetComment E c id).err = some (mismatchError E "GetComment" "comment" id)) ∧
    ((getItem E c id).val.Type_ ≠ "poll" →
      (GetPoll E c id).err = some (mismatchError E "GetPoll" "poll" id)) ∧
    ((getItem E c id).val.Type_ ≠ "pollopt" →
      (GetPart E c id).err = some (mismatchError E "GetPart" "part" id)) := by
  refine ⟨?_, ?_, ?_, ?_⟩
  · intro hne
    simp [GetStory, h, hne]
  · intro hne
    simp [GetComment, h, hne]
  · intro hne
    simp [GetPoll, h, hne]
  · intro hne
    simp [GetPart, h, hne]

/-! ## Typed accessors -/

set_option maxRecDepth 8192

/-- Claim C1. For each of `GetStory`, `GetComment`, `GetPoll`, `GetPart` and every
id: when `getItem` succeeds with an item whose `Type()` differs from the
accessor's discriminant (`story`, `comment`, `poll`, `pollopt`), the accessor
returns an error that is not nil together with the zero value of its result
type. -/
theorem typed_accessor_mismatch_zero (E : Env) (c : Client) (id : Int)
    (h : (getItem E c id).err = none) :
    ((getItem E c id).val.Type_ ≠ "story" →
      (GetStory E c id).err ≠ none ∧ (GetStory E c id).val = {}) ∧
    ((getItem E c id).val.Type_ ≠ "comment" →
      (GetComment E c id).err ≠ none ∧ (GetComment E c id).val = {}) ∧
    ((getItem E c id).val.Type_ ≠ "poll" →
      (GetPoll E c id).err ≠ none ∧ (GetPoll E c id).val = {}) ∧
    ((getItem E c id).val.Type_ ≠ "pollopt" →
      (GetPart E c id).err ≠ none ∧ (GetPart E c id).val = {}) := by
  refine ⟨?_, ?_, ?_, ?_⟩
  · intro hne
    simp [GetStory, h, hne]
  · intro hne
    simp [GetComment, h, hne]
  · intro hne
    simp [GetPoll, h, hne]
  · intro hne
    simp [GetPart, h, hne]

/-- Claim C1 at concrete inputs: the story 8412605 asked for as a comment, a poll
and a poll option, and the comment 2921983 asked for as a story. -/
theorem typed_accessor_mismatch_zero_witness :
    (getItem demoEnv demoClient 8412605).err = none ∧
    (getItem demoEnv demoClient 8412605).val.Type_ = "story" ∧
    ((GetComment demoEnv demoClient 8412605).err ≠ none ∧
      (GetComment demoEnv demoClient 8412605).val = {}) ∧
    ((GetPoll demoEnv demoClient 8412605).err ≠ none ∧
      (GetPoll demoEnv demoClient 8412605).val = {}) ∧
    ((GetPart demoEnv demoClient 8412605).err ≠ none ∧
      (GetPart demoEnv demoClient 8412605).val = {}) ∧
    (getItem demoEnv demoClient 2921983).err = none ∧
    ((GetStory demoEnv demoClient 2921983).err ≠ none ∧
      (GetStory demoEnv demoClient 2921983).val = {}) :=
  ⟨by decide, by decide,
    (typed_accessor_mismatch_zero demoEnv demoClient 8412605 (by decide)).2.1 (by decide),
    (typed_accessor_mismatch_zero demoEnv demoClient 8412605 (by decide)).2.2.1 (by decide),
    (typed_accessor_mismatch_zero demoEnv demoClient 8412605 (by decide)).2.2.2 (by decide),
    by decide,
    (typed_accessor_mismatch_zero demoEnv demoClient 2921983 (by decide)).1 (by decide)⟩

/-- Claim C2. When `getItem` succeeds with an item of type `story`, `GetStory`
returns a nil error and the story whose fields are the item's `By()`, `ID()`,
`Kids()`, `Score()`, `Time()`, `Title()`, `Type()` and `URL()` (so its type is
`story`), and the three other accessors return an error; likewise for
`GetComment` and `ToComment`, `GetPoll` and `ToPoll`, `GetPart` and `ToPart`
with their discriminants and fields. -/
theorem typed_accessor_match_projects (E : Env) (c : Client) (id : Int)
    (h : (getItem E c id).err = none) :
    ((getItem E c id).val.Type_ = "story" →
      (GetStory E c id).err = none ∧
      (GetStory E c id).val = (getItem E c id).val.ToStory ∧
      (GetStory E c id).val.By = (getItem E c id).val.By ∧
      (GetStory E c id).val.ID = (getItem E c id).val.ID ∧
      (GetStory E c id).val.Kids = (getItem E c id).val.Kids ∧
      (GetStory E c id).val.Score = (getItem E c id).val.Score ∧
      (GetStory E c id).val.Time = (getItem E c id).val.Time ∧
      (GetStory E c id).val.Title = (getItem E c id).val.Title ∧
      (GetStory E c id).val.Type_ = (getItem E c id).val.Type_ ∧
      (GetStory E c id).val.URL = (getItem E c id).val.URL ∧
      (GetStory E c id).val.Type_ = "story" ∧
      (GetComment E c id).err ≠ none ∧ (GetPoll E c id).err ≠ none ∧
      (GetPart E c id).err ≠ none) ∧
    ((getItem E c id).val.Type_ = "comment" →
      (GetComment E c id).err = none ∧
      (GetComment E c id).val = (getItem E c id).val.ToComment ∧
      (GetComment E c id).val.By = (getItem E c id).val.By ∧
      (GetComment E c id).val.ID = (getItem E c id).val.ID ∧
      (GetComment E c id).val.Kids = (getItem E c id).val.Kids ∧
      (GetComment E c id).val.Parent = (getItem E c id).val.Parent ∧
      (GetComment E c id).val.Text = (getItem E c id).val.Text ∧
      (GetComment E c id).val.Time = (getItem E c id).val.Time ∧
      (GetComment E c id).val.Type_ = (getItem E c id).val.Type_ ∧
      (GetComment E c id).val.Type_ = "comment" ∧
      (GetStory E c id).err ≠ none ∧ (GetPoll E c id).err ≠ none ∧
      (GetPart E c id).err ≠ none) ∧
    ((getItem E c id).val.Type_ = "poll" →
      (GetPoll E c id).err = none ∧
      (GetPoll E c id).val = (getItem E c id).val.ToPoll ∧
      (GetPoll E c id).val.By = (getItem E c id).val.By ∧
      (GetPoll E c id).val.ID = (getItem E c id).val.ID ∧
      (GetPoll E c id).val.Kids = (getItem E c id).val.Kids ∧
      (GetPoll E c id).val.Parts = (getItem E c id).val.Parts ∧
      (GetPoll E c id).val.Score = (getItem E c id).val.Score ∧
      (GetPoll E c id).val.Text = (getItem E c id).val.Text ∧
      (GetPoll E c id).val.Time = (getItem E c id).val.Time ∧
      (GetPoll E c id).val.Title = (getItem E c id).val.Title ∧
      (GetPoll E c id).val.Type_ = (getItem E c id).val.Type_ ∧
      (GetPoll E c id).val.Type_ = "poll" ∧
      (GetStory E c id).err ≠ none ∧ (GetComment E c id).err ≠ none ∧
      (GetPart E c id).err ≠ none) ∧
    ((getItem E c id).val.Type_ = "pollopt" →
      (GetPart E c id).err = none ∧
      (GetPart E c id).val = (getItem E c id).val.ToPart ∧
      (GetPart E c id).val.By = (getItem E c id).val.By ∧
      (GetPart E c id).val.ID = (getItem E c id).val.ID ∧
      (GetPart E c id).val.Parent = (getItem E c id).val.Parent ∧
      (GetPart E c id).val.Score = (getItem E c id).val.Score ∧
      (GetPart E c id).val.Text = (getItem E c id).val.Text ∧
      (GetPart E c id).val.Time = (getItem E c id).val.Time ∧
      (GetPart E c id).val.Type_ = (getItem E c id).val.Type_ ∧
      (GetPart E c id).val.Type_ = "pollopt" ∧
      (GetStory E c id).err ≠ none ∧ (GetComment E c id).err ≠ none ∧
      (GetPoll E c id).err ≠ none) := by
  refine ⟨?_, ?_, ?_, ?_⟩
  · intro ht
    simp [GetStory, GetComment, GetPoll, GetPart, h, ht, item.ToStory]
  · intro ht
    simp [GetStory, GetComment, GetPoll, GetPart, h, ht, item.ToComment]
  · intro ht
    simp [GetStory, GetComment, GetPoll, GetPart, h, ht, item.ToPoll]
  · intro ht
    simp [GetStory, GetComment, GetPoll, GetPart, h, ht, item.ToPart]

/-- Claim C2 at a concrete input: the story 8412605 of the demo world. -/
theorem typed_accessor_match_projects_witness :
    (getItem demoEnv demoClient 8412605).err = none ∧
    (getItem demoEnv demoClient 8412605).val.Type_ = "story" ∧
    (GetStory demoEnv demoClient 8412605).err = none ∧
    (GetStory demoEnv demoClient 8412605).val =
      { By := "example_user", ID := 8412605, Score := 42, Title := "Example Title",
        Type_ := "story" } ∧
    (GetComment demoEnv demoClient 8412605).err ≠ none :=
  ⟨by decide, by decide,
    ((typed_accessor_match_projects demoEnv demoClient 8412605 (by decide)).1 (by decide)).1,
    ((typed_accessor_match_projects demoEnv demoClient 8412605 (by decide)).1
      (by decide)).2.1.trans (by decide),
    ((typed_accessor_match_projects demoEnv demoClient 8412605 (by decide)).1
      (by decide)).2.2.2.2.2.2.2.2.2.2.2.1⟩

/-- Claim C3, evaluated on the code. `GetComment(8412605)` on an item of type
`story`, and `GetStory(2921983)` on an item of type `comment`: each message names
the id and the operation, and where the actual type should stand it has the code
address of the method value `item.Type` (`0x4a4f30` in the demo runtime), the
same text for both items. The message for the story does not contain the word
`story`. -/
theorem mismatch_message_omits_actual_type :
    (getItem demoEnv demoClient 8412605).val.Type_ = "story" ∧
    (GetComment demoEnv demoClient 8412605).err =
      some (.errorf
        "Called GetComment on ID #8412605 which is not a _comment_. Item is of type _0x4a4f30_.") ∧
    (getItem demoEnv demoClient 2921983).val.Type_ = "comment" ∧
    (GetStory demoEnv demoClient 2921983).err =
      some (.errorf
        "Called GetStory on ID #2921983 which is not a _story_. Item is of type _0x4a4f30_.") ∧
    ¬ ("story".data <:+:
      (mismatchError demoEnv "GetComment" "comment" 8412605).Error.data) := by
  refine ⟨by decide, by decide, by decide, by decide, ?_⟩
  decide

/-- Claim C4. For each typed accessor and every id: when `getItem` fails with
error `e`, the accessor returns exactly `e` and the zero value of its result
type, with no further request; and when the transport answers the item request
with status 404, `getItem` fails and returns the nil map (with the error
`Not Found` when the body could be read). -/
theorem typed_accessor_propagates_getItem_error (E : Env) (c : Client) (id : Int) :
    (∀ e, (getItem E c id).err = some e →
      GetStory E c id = ⟨{}, some e, [itemURL c id]⟩ ∧
      GetComment E c id = ⟨{}, some e, [itemURL c id]⟩ ∧
      GetPoll E c id = ⟨{}, some e, [itemURL c id]⟩ ∧
      GetPart E c id = ⟨{}, some e, [itemURL c id]⟩) ∧
    (∀ response, c.HTTPClient.Get (itemURL c id) = .ok response →
      response.StatusCode = 404 →
      (getItem E c id).val = .nil ∧ (getItem E c id).err ≠ none ∧
      (∀ body, response.Body = .ok body →
        (getItem E c id).err = some (.errorf "Not Found"))) := by
  constructor
  · intro e h
    have hr := getItem_reqs E c id
    simp [GetStory, GetComment, GetPoll, GetPart, h, hr]
  · intro response hget hstatus
    cases hbody : response.Body with
    | error err =>
      have hm : (MakeHTTPRequest c (itemURL c id)).err = some err := by
        simp [MakeHTTPRequest, hget, hbody]
      have hg := getItem_val_of_transport_err E c id err hm
      refine ⟨hg.1, by simp [hg.2], ?_⟩
      intro body hb
      cases hb
    | ok body =>
      have hm : (MakeHTTPRequest c (itemURL c id)).err = some (.errorf "Not Found") := by
        simp [MakeHTTPRequest, hget, hbody, hstatus]
      have hg := getItem_val_of_transport_err E c id _ hm
      refine ⟨hg.1, by simp [hg.2], ?_⟩
      intro _ _
      exact hg.2

/-- Claim C4 at a concrete input: item 99999999, answered with status 404. -/
theorem typed_accessor_propagates_getItem_error_witness :
    (getItem demoEnv demoClient 99999999).err = some (.errorf "Not Found") ∧
    (getItem demoEnv demoClient 99999999).val = .nil ∧
    GetStory demoEnv demoClient 99999999 =
      ⟨{}, some (.errorf "Not Found"),
        ["https://hacker-news.firebaseio.com/v0/item/99999999.json"]⟩ ∧
    GetPart demoEnv demoClient 99999999 =
      ⟨{}, some (.errorf "Not Found"),
        ["https://hacker-news.firebaseio.com/v0/item/99999999.json"]⟩ :=
  ⟨by decide,
    ((typed_accessor_propagates_getItem_error demoEnv demoClient 99999999).2
      ⟨404, .ok (bytesOf "Not found")⟩ rfl rfl).1,
    ((typed_accessor_propagates_getItem_error demoEnv demoClient 99999999).1
      (.errorf "Not Found") (by decide)).1.trans (by decide),
    ((typed_accessor_propagates_getItem_error demoEnv demoClient 99999999).1
      (.errorf "Not Found") (by decide)).2.2.2.trans (by decide)⟩

/-! ## Transport -/

/-- Claim C10. `MakeHTTPRequest` fails exactly when the GET fails, reading the
body fails, or the status code is 404; in every other case, whatever the status
code, it returns a nil error and the whole body as read. -/
theorem MakeHTTPRequest_fails_iff (c : Client) (url : String) :
    ((MakeHTTPRequest c url).err ≠ none ↔
      ((∃ e, c.HTTPClient.Get url = .error e) ∨
       (∃ response e, c.HTTPClient.Get url = .ok response ∧ response.Body = .error e) ∨
       (∃ response, c.HTTPClient.Get url = .ok response ∧ response.StatusCode = 404))) ∧
    (∀ response body, c.HTTPClient.Get url = .ok response → response.Body = .ok body →
      response.StatusCode ≠ 404 → MakeHTTPRequest c url = ⟨body, none, [url]⟩) ∧
    (∀ e, c.HTTPClient.Get url = .error e → MakeHTTPRequest c url = ⟨[], some e, [url]⟩) ∧
    (∀ response e, c.HTTPClient.Get url = .ok response → response.Body = .error e →
      MakeHTTPRequest c url = ⟨[], some e, [url]⟩) ∧
    (∀ response body, c.HTTPClient.Get url = .ok response → response.Body = .ok body →
      response.StatusCode = 404 →
      MakeHTTPRequest c url = ⟨[], some (.errorf "Not Found"), [url]⟩) := by
  refine ⟨?_, ?_, ?_, ?_, ?_⟩
  · cases hget : c.HTTPClient.Get url with
    | error e => simp [MakeHTTPRequest, hget]
    | ok response =>
      cases hbody : response.Body with
      | error e => simp [MakeHTTPRequest, hget, hbody]
      | ok body =>
        by_cases hstatus : response.StatusCode = 404
        · simp [MakeHTTPRequest, hget, hbody, hstatus]
        · simp [MakeHTTPRequest, hget, hbody, hstatus]
  · intro response body hget hbody hstatus
    simp [MakeHTTPRequest, hget, hbody, hstatus]
  · intro e hget
    simp [MakeHTTPRequest, hget]
  · intro response e hget hbody
    simp [MakeHTTPRequest, hget, hbody]
  · intro response body hget hbody hstatus
    simp [MakeHTTPRequest, hget, hbody, hstatus]

/-- Claim C10 at concrete inputs: a response with status 500 is returned as a
success with its body, one with status 404 is an error, and so is a refused
connection. -/
theorem MakeHTTPRequest_fails_iff_witness :
    MakeHTTPRequest demoClient "https://hacker-news.firebaseio.com/v0/item/500.json" =
      ⟨storyBody, none, ["https://hacker-news.firebaseio.com/v0/item/500.json"]⟩ ∧
    MakeHTTPRequest demoClient "https://hacker-news.firebaseio.com/v0/item/99999999.json" =
      ⟨[], some (.errorf "Not Found"),
        ["https://hacker-news.firebaseio.com/v0/item/99999999.json"]⟩ ∧
    MakeHTTPRequest downClient "https://hacker-news.firebaseio.com/v0/maxitem.json" =
      ⟨[], some (.net "dial tcp: connection refused"),
        ["https://hacker-news.firebaseio.com/v0/maxitem.json"]⟩ :=
  ⟨(MakeHTTPRequest_fails_iff demoClient
      "https://hacker-news.firebaseio.com/v0/item/500.json").2.1
      ⟨500, .ok storyBody⟩ storyBody rfl rfl (by decide),
    (MakeHTTPRequest_fails_iff demoClient
      "https://hacker-news.firebaseio.com/v0/item/99999999.json").2.2.2.2
      ⟨404, .ok (bytesOf "Not found")⟩ (bytesOf "Not found") rfl rfl rfl,
    (MakeHTTPRequest_fails_iff downClient
      "https://hacker-news.firebaseio.com/v0/maxitem.json").2.2.1
      (.net "dial tcp: connection refused") rfl⟩

/-! ## Index endpoints -/

/-- When the transport fails, `GetTopStories`, `GetMaxItem` and `GetChanges`
return what `json.Unmarshal` reports for the nil body: the transport error does
not enter the result. -/
theorem index_endpoints_err_of_transport_err (E : Env) (c : Client) :
    (∀ e, (MakeHTTPRequest c (topStoriesURL c)).err = some e →
      (GetTopStories E c).err = (E.unmarshalInts []).2) ∧
    (∀ e, (MakeHTTPRequest c (maxItemURL c)).err = some e →
      (E.unmarshalInt []).2 ≠ none → (GetMaxItem E c).err = (E.unmarshalInt []).2) ∧
    (∀ e, (MakeHTTPRequest c (changesURL c)).err = some e →
      (GetChanges E c).err = (E.unmarshalChanges []).2) := by
  refine ⟨?_, ?_, ?_⟩
  · intro e h
    have hv := MakeHTTPRequest_val_of_err c _ e h
    unfold GetTopStories
    simp only [hv]
    split
    · rename_i h2
      simp [h2]
    · rename_i h2
      simp [h2]
  · intro e h hd
    have hv := MakeHTTPRequest_val_of_err c _ e h
    unfold GetMaxItem
    simp only [hv]
    split
    · rename_i h2
      simp [h2]
    · rename_i h2
      exact absurd h2 hd
  · intro e h
    have hv := MakeHTTPRequest_val_of_err c _ e h
    simp [GetChanges, hv]

/-- Claim C5, evaluated on the code. With a transport that refuses the
connection, `MakeHTTPRequest` fails with the connection error, and
`GetTopStories`, `GetMaxItem` and `GetChanges` each return the JSON error for an
empty input instead of it; the same happens to the `Not Found` error of a 404
response. -/
theorem index_endpoints_replace_transport_error :
    (MakeHTTPRequest downClient (topStoriesURL downClient)).err =
      some (.net "dial tcp: connection refused") ∧
    (GetTopStories demoEnv downClient).err = some (.json "unexpected end of JSON input") ∧
    (MakeHTTPRequest downClient (maxItemURL downClient)).err =
      some (.net "dial tcp: connection refused") ∧
    (GetMaxItem demoEnv downClient).err = some (.json "unexpected end of JSON input") ∧
    (MakeHTTPRequest downClient (changesURL downClient)).err =
      some (.net "dial tcp: connection refused") ∧
    (GetChanges demoEnv downClient).err = some (.json "unexpected end of JSON input") ∧
    (MakeHTTPRequest missingClient (topStoriesURL missingClient)).err =
      some (.errorf "Not Found") ∧
    (GetTopStories demoEnv missingClient).err = some (.json "unexpected end of JSON input") := by
  decide

/-- Claim C9. When the body of the top-stories request decodes as the sequence
`xs`, `GetTopStories` returns a nil error and exactly `xs`: the same length, the
same elements in the same order, whatever its length and whether or not it is
sorted or repeats an id; so encoding the result again, with any encoder, gives
what encoding `xs` gives. -/
theorem GetTopStories_returns_decoded (E : Env) (c : Client) (xs : List Int)
    (h : E.unmarshalInts (MakeHTTPRequest c (topStoriesURL c)).val = (xs, none)) :
    GetTopStories E c = ⟨xs, none, [topStoriesURL c]⟩ ∧
    (GetTopStories E c).val.length = xs.length ∧
    (∀ k, (GetTopStories E c).val.get? k = xs.get? k) ∧
    (∀ encode : List Int → Bytes, encode (GetTopStories E c).val = encode xs) := by
  have hr := MakeHTTPRequest_reqs c (topStoriesURL c)
  have hg : GetTopStories E c = ⟨xs, none, [topStoriesURL c]⟩ := by
    simp [GetTopStories, h, hr]
  refine ⟨hg, ?_, ?_, ?_⟩
  · rw [hg]
  · intro k
    rw [hg]
  · intro encode
    rw [hg]

/-- Claim C9 at a concrete input: the index `[3,1,2,1]`, unsorted and with a
repeated id, comes back as it was received. -/
theorem GetTopStories_returns_decoded_witness :
    demoEnv.unmarshalInts (MakeHTTPRequest demoClient (topStoriesURL demoClient)).val =
      ([3, 1, 2, 1], none) ∧
    GetTopStories demoEnv demoClient =
      ⟨[3, 1, 2, 1], none, ["https://hacker-news.firebaseio.com/v0/topstories.json"]⟩ :=
  ⟨by decide,
    (GetTopStories_returns_decoded demoEnv demoClient [3, 1, 2, 1] (by decide)).1.trans
      (by decide)⟩

/-- Claim C6. `GetMaxItem` is integer decoding followed by `getItem`: with `b` the
body that the max-item request yields, when `b` decodes as the integer `n`,
`GetMaxItem` returns the item and the error that `getItem(n)` returns (after the
max-item request, the requests of `getItem(n)`); when decoding `b` fails with
error `e`, `GetMaxItem` returns `e` with the empty item and requests nothing but
the max-item URL. -/
theorem GetMaxItem_is_decode_then_getItem (E : Env) (c : Client) :
    (∀ n, E.unmarshalInt (MakeHTTPRequest c (maxItemURL c)).val = (n, none) →
      (GetMaxItem E c).val = (getItem E c n).val ∧
      (GetMaxItem E c).err = (getItem E c n).err ∧
      (GetMaxItem E c).reqs = maxItemURL c :: (getItem E c n).reqs) ∧
    (∀ n e, E.unmarshalInt (MakeHTTPRequest c (maxItemURL c)).val = (n, some e) →
      GetMaxItem E c = ⟨.map [], some e, [maxItemURL c]⟩) := by
  have hr := MakeHTTPRequest_reqs c (maxItemURL c)
  constructor
  · intro n h
    simp [GetMaxItem, h, hr]
  · intro n e h
    simp [GetMaxItem, h, hr]

/-- Claim C6 at concrete inputs: the body `8412605` leads to the item 8412605,
and with a transport that is down nothing but the max-item URL is requested. -/
theorem GetMaxItem_is_decode_then_getItem_witness :
    demoEnv.unmarshalInt (MakeHTTPRequest demoClient (maxItemURL demoClient)).val =
      (8412605, none) ∧
    (GetMaxItem demoEnv demoClient).val = (getItem demoEnv demoClient 8412605).val ∧
    (GetMaxItem demoEnv demoClient).err = none ∧
    (GetMaxItem demoEnv demoClient).reqs =
      ["https://hacker-news.firebaseio.com/v0/maxitem.json",
       "https://hacker-news.firebaseio.com/v0/item/8412605.json"] ∧
    GetMaxItem demoEnv downClient =
      ⟨.map [], some (.json "unexpected end of JSON input"),
        ["https://hacker-news.firebaseio.com/v0/maxitem.json"]⟩ :=
  ⟨by decide,
    ((GetMaxItem_is_decode_then_getItem demoEnv demoClient).1 8412605 (by decide)).1,
    ((GetMaxItem_is_decode_then_getItem demoEnv demoClient).1 8412605 (by decide)).2.1.trans
      (by decide),
    ((GetMaxItem_is_decode_then_getItem demoEnv demoClient).1 8412605 (by decide)).2.2.trans
      (by decide),
    ((GetMaxItem_is_decode_then_getItem demoEnv downClient).2 0
      (.json "unexpected end of JSON input") (by decide)).trans (by decide)⟩

/-! ## Request URLs -/

/-- Claim C8. For every client the URL an operation requests is `BaseURI ++
Version ++ path ++ Suffix`, with the path `/item/` and the decimal id for
`getItem`, `/user/` and the id for `GetUser`, `/topstories`, `/maxitem` (first
request of `GetMaxItem`) and `/updates`; a client built by `NewClient`, with or
without a transport handle, has the strings
`https://hacker-news.firebaseio.com/`, `v0` and `.json`, so that
`getItem(8412605)` requests
`https://hacker-news.firebaseio.com/v0/item/8412605.json`. -/
theorem request_urls (E : Env) (c : Client) :
    (∀ id : Int, (getItem E c id).reqs =
      [c.BaseURI ++ c.Version ++ "/item/" ++ Itoa id ++ c.Suffix]) ∧
    (∀ id : String, (GetUser E c id).reqs =
      [c.BaseURI ++ c.Version ++ "/user/" ++ id ++ c.Suffix]) ∧
    (GetTopStories E c).reqs = [c.BaseURI ++ c.Version ++ "/topstories" ++ c.Suffix] ∧
    (GetMaxItem E c).reqs.head? = some (c.BaseURI ++ c.Version ++ "/maxitem" ++ c.Suffix) ∧
    (GetChanges E c).reqs = [c.BaseURI ++ c.Version ++ "/updates" ++ c.Suffix] ∧
    (∀ handle : Option HTTPClient,
      (NewClient E handle).BaseURI = "https://hacker-news.firebaseio.com/" ∧
      (NewClient E handle).Version = "v0" ∧
      (NewClient E handle).Suffix = ".json" ∧
      (NewClient E none).HTTPClient = E.DefaultClient ∧
      (∀ h, (NewClient E (some h)).HTTPClient = h) ∧
      (getItem E (NewClient E handle) 8412605).reqs =
        ["https://hacker-news.firebaseio.com/v0/item/8412605.json"]) := by
  refine ⟨?_, ?_, ?_, ?_, ?_, ?_⟩
  · intro id
    exact getItem_reqs E c id
  · intro id
    have hr := MakeHTTPRequest_reqs c (userURL c id)
    unfold GetUser
    simp only
    split
    · exact hr
    · split <;> exact hr
  · have hr := MakeHTTPRequest_reqs c (topStoriesURL c)
    unfold GetTopStories
    simp only
    split <;> exact hr
  · have hr := MakeHTTPRequest_reqs c (maxItemURL c)
    unfold GetMaxItem
    simp only
    split
    · exact congrArg List.head? hr
    · show ((MakeHTTPRequest c (maxItemURL c)).reqs ++ _).head? = _
      rw [hr]
      rfl
  · exact MakeHTTPRequest_reqs c (changesURL c)
  · intro handle
    refine ⟨rfl, rfl, rfl, rfl, fun _ => rfl, ?_⟩
    rw [getItem_reqs]
    have hu : itemURL (NewClient E handle) 8412605 =
        "https://hacker-news.firebaseio.com/v0/item/8412605.json" := by
      show "https://hacker-news.firebaseio.com/" ++ "v0" ++ "/item/" ++ Itoa 8412605 ++ ".json" = _
      decide
    rw [hu]

/-! ## Values returned with an error -/

/-- Claim C7 fails as stated. `GetUser` on a body `encoding/json` decodes in part
returns an error together with a user whose karma is set; `GetChanges` does the
same with the changed items; and `GetMaxItem`, when the id cannot be decoded,
returns the empty map `item{}`, which is not the nil map. -/
theorem partial_value_with_error :
    (GetUser demoEnv demoClient "bad").err ≠ none ∧
    (GetUser demoEnv demoClient "bad").val = { Karma := 5 } ∧
    (GetUser demoEnv demoClient "bad").val ≠ {} ∧
    (GetChanges demoEnv badChangesClient).err ≠ none ∧
    (GetChanges demoEnv badChangesClient).val = { Items := [1, 2] } ∧
    (GetChanges demoEnv badChangesClient).val ≠ {} ∧
    (GetMaxItem demoEnv downClient).err ≠ none ∧
    (GetMaxItem demoEnv downClient).val = .map [] ∧
    (GetMaxItem demoEnv downClient).val ≠ .nil := by
  decide

/-- Claim C7, amended. The four typed accessors and `GetTopStories` return the
zero value of their result type whenever they return an error. `GetUser`
returns the zero `User` and the transport error when the transport fails;
otherwise `GetUser`, and in every case `GetChanges`, return the value and the
error that `json.Unmarshal` left, so the value is zero with a decoding error
only if the decoder stored nothing. `GetMaxItem` returns the empty item
`item{}` when the id cannot be decoded and otherwise the value and error of
`getItem`, which returns the nil map when its request fails. -/
theorem values_returned_with_errors (E : Env) (c : Client) :
    (∀ id, (GetStory E c id).err ≠ none → (GetStory E c id).val = {}) ∧
    (∀ id, (GetComment E c id).err ≠ none → (GetComment E c id).val = {}) ∧
    (∀ id, (GetPoll E c id).err ≠ none → (GetPoll E c id).val = {}) ∧
    (∀ id, (GetPart E c id).err ≠ none → (GetPart E c id).val = {}) ∧
    ((GetTopStories E c).err ≠ none → (GetTopStories E c).val = []) ∧
    (∀ id e, (MakeHTTPRequest c (userURL c id)).err = some e →
      (GetUser E c id).val = {} ∧ (GetUser E c id).err = some e) ∧
    (∀ id, (MakeHTTPRequest c (userURL c id)).err = none →
      (GetUser E c id).val = (E.unmarshalUser (MakeHTTPRequest c (userURL c id)).val).1 ∧
      (GetUser E c id).err = (E.unmarshalUser (MakeHTTPRequest c (userURL c id)).val).2) ∧
    ((GetChanges E c).val = (E.unmarshalChanges (MakeHTTPRequest c (changesURL c)).val).1 ∧
      (GetChanges E c).err = (E.unmarshalChanges (MakeHTTPRequest c (changesURL c)).val).2) ∧
    ((E.unmarshalInt (MakeHTTPRequest c (maxItemURL c)).val).2 ≠ none →
      (GetMaxItem E c).val = .map [] ∧
      (GetMaxItem E c).err = (E.unmarshalInt (MakeHTTPRequest c (maxItemURL c)).val).2) ∧
    ((E.unmarshalInt (MakeHTTPRequest c (maxItemURL c)).val).2 = none →
      (GetMaxItem E c).val =
        (getItem E c (E.unmarshalInt (MakeHTTPRequest c (maxItemURL c)).val).1).val ∧
      (GetMaxItem E c).err =
        (getItem E c (E.unmarshalInt (MakeHTTPRequest c (maxItemURL c)).val).1).err) ∧
    (∀ id e, (MakeHTTPRequest c (itemURL c id)).err = some e →
      (getItem E c id).val = .nil ∧ (getItem E c id).err = some e) := by
  refine ⟨?_, ?_, ?_, ?_, ?_, ?_, ?_, ?_, ?_, ?_, ?_⟩
  · intro id h
    unfold GetStory at h ⊢
    simp only at h ⊢
    split
    · rfl
    · split
      · rfl
      · rename_i h1 h2
        simp [h1, h2] at h
  · intro id h
    unfold GetComment at h ⊢
    simp only at h ⊢
    split
    · rfl
    · split
      · rfl
      · rename_i h1 h2
        simp [h1, h2] at h
  · intro id h
    unfold GetPoll at h ⊢
    simp only at h ⊢
    split
    · rfl
    · split
      · rfl
      · rename_i h1 h2
        simp [h1, h2] at h
  · intro id h
    unfold GetPart at h ⊢
    simp only at h ⊢
    split
    · rfl
    · split
      · rfl
      · rename_i h1 h2
        simp [h1, h2] at h
  · intro h
    unfold GetTopStories at h ⊢
    simp only at h ⊢
    split
    · rfl
    · rename_i h1
      simp [h1] at h
  · intro id e h
    simp [GetUser, h]
  · intro id h
    unfold GetUser
    simp only [h]
    split
    · rename_i h1
      simp [h1]
    · rename_i h1
      simp [h1]
  · simp [GetChanges]
  · intro h
    unfold GetMaxItem
    simp only
    split
    · rename_i h1
      simp [h1]
    · rename_i h1
      exact absurd h1 h
  · intro h
    simp [GetMaxItem, h]
  · intro id e h
    exact getItem_val_of_transport_err E c id e h

/-- Claim C7, amended, at concrete inputs: the values that come with the errors
of the demo world. -/
theorem values_returned_with_errors_witness :
    (GetStory demoEnv demoClient 99999999).err ≠ none ∧
    (GetStory demoEnv demoClient 99999999).val = {} ∧
    (GetComment demoEnv demoClient 8412605).err ≠ none ∧
    (GetComment demoEnv demoClient 8412605).val = {} ∧
    (GetTopStories demoEnv downClient).err ≠ none ∧
    (GetTopStories demoEnv downClient).val = [] ∧
    (GetUser demoEnv downClient "pg").val = {} ∧
    (GetUser demoEnv demoClient "bad").val = (demoUnmarshalUser badUserBody).1 ∧
    (GetMaxItem demoEnv downClient).val = .map [] :=
  ⟨by decide,
    (values_returned_with_errors demoEnv demoClient).1 99999999 (by decide),
    by decide,
    (values_returned_with_errors demoEnv demoClient).2.1 8412605 (by decide),
    by decide,
    (values_returned_with_errors demoEnv downClient).2.2.2.2.1 (by decide),
    ((values_returned_with_errors demoEnv downClient).2.2.2.2.2.1 "pg"
      (.net "dial tcp: connection refused") (by decide)).1,
    ((values_returned_with_errors demoEnv demoClient).2.2.2.2.2.2.1 "bad" (by decide)).1.trans
      (by decide),
    ((values_returned_with_errors demoEnv downClient).2.2.2.2.2.2.2.2.1 (by decide)).1⟩

end Gophernews
